import Mathlib

/-!
Shallow embedding of the multiplayer world client in src/game.js.

JavaScript objects used as string-keyed dictionaries (this.players,
this.avatars, avatar.frames, this.keysPressed) are modelled as association
lists `List (String × α)`: JS objects keep insertion order for
non-integer-like string keys, which matters for the held-key priority rule.
A JS object field that may be absent is modelled as `Option`. Indexing an
object with a possibly-undefined key uses the JS stringification rule
(`obj[undefined]` reads property "undefined"), modelled by `jsKey`.
Numbers are modelled as ℚ (all arithmetic in the client is exact: additions,
subtractions, halving, min/max).
-/

/-- JS property-key coercion: indexing with `undefined` uses the key
"undefined". -/
def jsKey (k : Option String) : String :=
  match k with
  | some s => s
  | none => "undefined"

/-- `m[k] = v` on a JS object: replace the value at the first occurrence of
`k`, or append `(k, v)` when the key is absent (insertion order preserved). -/
def setKey {α : Type} (m : List (String × α)) (k : String) (v : α) :
    List (String × α) :=
  match m with
  | [] => [(k, v)]
  | (k0, v0) :: rest =>
    if k0 = k then (k, v) :: rest else (k0, v0) :: setKey rest k v

/-- `m[k]` on a JS object: `some` value at the key, `none` for `undefined`. -/
def lookupKey {α : Type} (m : List (String × α)) (k : String) : Option α :=
  match m with
  | [] => none
  | (k0, v0) :: rest => if k0 = k then some v0 else lookupKey rest k

/-- A player record as a JS object: every field may be absent.  A full record
from the join snapshot or a player_joined event has all fields present; a
movement patch carries only the fields it updates. -/
structure PlayerObj where
  id : Option String
  username : Option String
  x : Option ℚ
  y : Option ℚ
  facing : Option String
  avatar : Option String
  animationFrame : Option Nat
deriving DecidableEq

/-- The JS object with no own fields (what spreading `undefined` yields). -/
def emptyPlayerObj : PlayerObj :=
  { id := none, username := none, x := none, y := none, facing := none,
    avatar := none, animationFrame := none }

/-- Per-field rule of the object spread `{ ...old, ...patch }`: the patch's
field wins when the patch owns it, otherwise the old value survives. -/
def spreadField {α : Type} (old patch : Option α) : Option α :=
  match patch with
  | some v => some v
  | none => old

/-- `{ ...old, ...patch }` where `old` may be `undefined` (absent player):
spreading `undefined` contributes no fields. -/
def mergeSpread (old : Option PlayerObj) (patch : PlayerObj) : PlayerObj :=
  let o := old.getD emptyPlayerObj
  { id := spreadField o.id patch.id,
    username := spreadField o.username patch.username,
    x := spreadField o.x patch.x,
    y := spreadField o.y patch.y,
    facing := spreadField o.facing patch.facing,
    avatar := spreadField o.avatar patch.avatar,
    animationFrame := spreadField o.animationFrame patch.animationFrame }

/-- handlePlayersMoved (game.js 172-184), store-mutation part:
for each id in the patch, `this.players[playerId] =
{ ...this.players[playerId], ...data.players[playerId] }`, reading the
evolving map. -/
def handlePlayersMoved (players : List (String × PlayerObj))
    (patch : List (String × PlayerObj)) : List (String × PlayerObj) :=
  patch.foldl (fun m kv => setKey m kv.1 (mergeSpread (lookupKey m kv.1) kv.2))
    players

/-- An avatar sheet record: name plus facing-direction → frame list (each
frame a base64 data string). -/
structure Avatar where
  name : String
  frames : List (String × List String)
deriving DecidableEq

/-- handlePlayerJoined (game.js 186-192), store-mutation part:
`this.players[data.player.id] = data.player;
this.avatars[data.avatar.name] = data.avatar;` — both unconditional. -/
def handlePlayerJoined (players : List (String × PlayerObj))
    (avatars : List (String × Avatar)) (player : PlayerObj) (avatar : Avatar) :
    List (String × PlayerObj) × List (String × Avatar) :=
  (setKey players (jsKey player.id) player, setKey avatars avatar.name avatar)

-- Basic association-list lemmas shared by the store theorems.

theorem lookupKey_setKey_self {α : Type} (m : List (String × α)) (k : String)
    (v : α) : lookupKey (setKey m k v) k = some v := by
  induction m with
  | nil => simp [setKey, lookupKey]
  | cons hd tl ih =>
    obtain ⟨k0, v0⟩ := hd
    by_cases h : k0 = k
    · simp [setKey, lookupKey, h]
    · simp [setKey, lookupKey, h, ih]

theorem lookupKey_setKey_ne {α : Type} (m : List (String × α)) (k k2 : String)
    (v : α) (h : k ≠ k2) : lookupKey (setKey m k v) k2 = lookupKey m k2 := by
  induction m with
  | nil => simp [setKey, lookupKey, h]
  | cons hd tl ih =>
    obtain ⟨k0, v0⟩ := hd
    by_cases h0 : k0 = k
    · subst h0
      simp [setKey, lookupKey, h]
    · simp [setKey, lookupKey, h0, ih]

theorem handlePlayersMoved_cons (players : List (String × PlayerObj))
    (hd : String × PlayerObj) (tl : List (String × PlayerObj)) :
    handlePlayersMoved players (hd :: tl) =
      handlePlayersMoved
        (setKey players hd.1 (mergeSpread (lookupKey players hd.1) hd.2)) tl :=
  rfl

theorem handlePlayersMoved_notMentioned (patch : List (String × PlayerObj))
    (players : List (String × PlayerObj)) (id : String)
    (h : id ∉ patch.map Prod.fst) :
    lookupKey (handlePlayersMoved players patch) id = lookupKey players id := by
  induction patch generalizing players with
  | nil => rfl
  | cons hd tl ih =>
    simp only [List.map_cons, List.mem_cons, not_or] at h
    rw [handlePlayersMoved_cons, ih _ h.2,
      lookupKey_setKey_ne _ _ _ _ (fun e => h.1 e.symm)]

theorem mergeSpread_none (v : PlayerObj) : mergeSpread none v = v := by
  obtain ⟨i, u, x, y, f, a, n⟩ := v
  simp only [mergeSpread, Option.getD, emptyPlayerObj]
  cases i <;> cases u <;> cases x <;> cases y <;> cases f <;> cases a <;>
    cases n <;> rfl

-- Rendering (game.js 269-312).

/-- Outcome of one drawPlayer call.  `drawn frame mirrored` records which
frame data string reaches the draw call and whether the west-facing mirror
transform is applied; `skipped` is an early `return`; `fault` is a thrown
TypeError (indexing a property of `undefined`). -/
inductive DrawResult where
  | drawn (frame : String) (mirrored : Bool)
  | skipped
  | fault
deriving DecidableEq

/-- `player.animationFrame || 0` (game.js 277): absent (and the falsy 0)
default to 0. -/
def frameIndexOf (player : PlayerObj) : Nat :=
  match player.animationFrame with
  | none => 0
  | some n => n

/-- drawPlayer (game.js 269-312): look up the avatar (`if (!avatar) return`),
pick `frames.east` when facing west else `frames[facing]` — indexing a frame
list of an absent facing throws —, index the frame list
(`if (!frameData) return`, which also skips the falsy empty string), and
draw, mirrored exactly when facing west. -/
def drawPlayer (avatars : List (String × Avatar)) (player : PlayerObj) :
    DrawResult :=
  match lookupKey avatars (jsKey player.avatar) with
  | none => DrawResult.skipped
  | some avatar =>
    let isWest : Bool := player.facing == some "west"
    match lookupKey avatar.frames
        (if isWest then "east" else jsKey player.facing) with
    | none => DrawResult.fault
    | some frameList =>
      match frameList[frameIndexOf player]? with
      | none => DrawResult.skipped
      | some frameData =>
        if frameData = "" then DrawResult.skipped
        else DrawResult.drawn frameData isWest

-- Input and the movement loop (game.js 328-437).

/-- The keyMap of getDirectionFromKey (game.js 365-377); an unmapped key
yields `undefined`. -/
def getDirectionFromKey (key : String) : Option String :=
  if key = "ArrowUp" then some "up"
  else if key = "ArrowDown" then some "down"
  else if key = "ArrowLeft" then some "left"
  else if key = "ArrowRight" then some "right"
  else if key = "w" then some "up"
  else if key = "s" then some "down"
  else if key = "a" then some "left"
  else if key = "d" then some "right"
  else none

/-- The movementKeys list of the keydown/keyup listeners (game.js 413, 427). -/
def movementKeys : List String :=
  ["ArrowUp", "ArrowDown", "ArrowLeft", "ArrowRight",
   "w", "W", "s", "S", "a", "A", "d", "D"]

/-- keydown listener (game.js 411-423) effect on `this.keysPressed`,
modelled in insertion order: a recognized key absent from the held set is
appended; anything else leaves the set unchanged. -/
def keydown (held : List String) (key : String) : List String :=
  if key ∈ movementKeys ∧ key ∉ held then held ++ [key] else held

/-- keyup listener (game.js 425-437) effect on `this.keysPressed`:
`delete this.keysPressed[key]` for a recognized key. -/
def keyup (held : List String) (key : String) : List String :=
  if key ∈ movementKeys then held.erase key else held

/-- `getDirectionFromKey(pressedKeys[0])` — the direction derived from the
first-inserted still-held key (game.js 346, 354). -/
def derivedDirection (pressedKeys : List String) : Option String :=
  match pressedKeys with
  | [] => none
  | k :: _ => getDirectionFromKey k

/-- An outgoing movement intent (game.js 379-393). -/
inductive Intent where
  | move (direction : String)
  | stop
deriving DecidableEq

/-- One movementLoop tick (game.js 345-363): empty held set → stopMovement
(clears currentDirection, emits stop); otherwise the direction of the
first-inserted key is sent only when truthy and different from
currentDirection.  Returns the new currentDirection and the intents sent. -/
def movementFrame (pressedKeys : List String)
    (currentDirection : Option String) : Option String × List Intent :=
  match pressedKeys with
  | [] => (none, [Intent.stop])
  | k :: _ =>
    match getDirectionFromKey k with
    | some d =>
      if currentDirection = some d then (currentDirection, [])
      else (some d, [Intent.move d])
    | none => (currentDirection, [])

/-- A run of consecutive movementLoop ticks: the held-key set observed at
each tick, threaded through currentDirection, concatenating sent intents. -/
def runFrames (frames : List (List String))
    (currentDirection : Option String) : Option String × List Intent :=
  match frames with
  | [] => (currentDirection, [])
  | ks :: rest =>
    let step := movementFrame ks currentDirection
    let restRun := runFrames rest step.1
    (restRun.1, step.2 ++ restRun.2)

-- Viewport (game.js 200-253).

def worldWidth : ℚ := 2048
def worldHeight : ℚ := 2048

/-- centerViewportOnMyAvatar (game.js 201-215), compute path: offset is the
player position minus half the canvas size, then
`Math.max(0, Math.min(v, world - canvas))` per axis. -/
def centerViewportOnMyAvatar (myPlayerX myPlayerY canvasWidth canvasHeight :
    ℚ) : ℚ × ℚ :=
  let centerX := canvasWidth / 2
  let centerY := canvasHeight / 2
  let viewportX := myPlayerX - centerX
  let viewportY := myPlayerY - centerY
  (max 0 (min viewportX (worldWidth - canvasWidth)),
   max 0 (min viewportY (worldHeight - canvasHeight)))

/-- updateViewportForMyAvatar (game.js 217-231): the soft recenter computes
the same clamped offset. -/
def updateViewportForMyAvatar (myPlayerX myPlayerY canvasWidth canvasHeight :
    ℚ) : ℚ × ℚ :=
  let desiredViewportX := myPlayerX - canvasWidth / 2
  let desiredViewportY := myPlayerY - canvasHeight / 2
  (max 0 (min desiredViewportX (worldWidth - canvasWidth)),
   max 0 (min desiredViewportY (worldHeight - canvasHeight)))

/-- worldToScreen (game.js 234-239). -/
def worldToScreen (viewportX viewportY worldX worldY : ℚ) : ℚ × ℚ :=
  (worldX - viewportX, worldY - viewportY)

/-- screenToWorld (game.js 241-246). -/
def screenToWorld (viewportX viewportY screenX screenY : ℚ) : ℚ × ℚ :=
  (screenX + viewportX, screenY + viewportY)

-- Reconnection (game.js 74-113).

def maxReconnectAttempts : Nat := 5

/-- attemptReconnect (game.js 103-113): below the cap, increment the counter
and schedule `connectToServer` after `2000 * this.reconnectAttempts`
milliseconds (read after the increment); at the cap, schedule nothing.
Returns the new counter and the scheduled delay, if any. -/
def attemptReconnect (reconnectAttempts : Nat) : Nat × Option Nat :=
  if reconnectAttempts < maxReconnectAttempts then
    (reconnectAttempts + 1, some (2000 * (reconnectAttempts + 1)))
  else
    (reconnectAttempts, none)

/-- ws.onopen (game.js 79-83): `this.reconnectAttempts = 0`. -/
def onOpenResetAttempts (_ : Nat) : Nat := 0

/-- The attempt counter after n consecutive abnormal closes starting from a
fresh connection (counter 0), each close invoking attemptReconnect. -/
def attemptsAfterCloses : Nat → Nat
  | 0 => 0
  | n + 1 => (attemptReconnect (attemptsAfterCloses n)).1

-- Concrete records used by counterexamples and witnesses.

/-- A movement patch for player id "p9": position and facing only, as
players_moved patches carry. -/
def patchP9 : PlayerObj :=
  { id := none, username := none, x := some 5, y := some 7,
    facing := some "north", avatar := none, animationFrame := none }

/-- An avatar sheet named "cat". -/
def avCat : Avatar := { name := "cat", frames := [("south", ["imgS0"])] }

/-- A different avatar sheet with the same name "cat". -/
def avCat2 : Avatar := { name := "cat", frames := [("south", ["OTHER"])] }

/-- A full player record as delivered by a player_joined event. -/
def pJoin : PlayerObj :=
  { id := some "p1", username := some "bob", x := some 100, y := some 100,
    facing := some "south", avatar := some "cat", animationFrame := some 0 }

/-- A full player record whose facing "north" has no frame set in avCat. -/
def pNorth : PlayerObj :=
  { id := some "p1", username := some "bob", x := some 100, y := some 100,
    facing := some "north", avatar := some "cat", animationFrame := some 0 }

-- C1 --

/-- C1 counterexample: the claim says a players_moved patch for an id absent
from the mirror leaves the store unchanged for that id.  On an empty mirror,
the patch for unknown id "p9" does change the store: a record now exists. -/
theorem c1_counterexample :
    lookupKey (handlePlayersMoved [] [("p9", patchP9)]) "p9" ≠ none ∧
    lookupKey ([] : List (String × PlayerObj)) "p9" = none := by
  decide

/-- C1 (amended): applying a players_moved patch never raises an error, but
for a player id absent from the current mirror it does not leave the store
unchanged: spreading the undefined record fabricates a fresh player record
consisting of exactly the patch's fields, which is inserted under that id. -/
theorem c1_unknown_id_fabricates_record (players patch :
    List (String × PlayerObj)) (id : String) (v : PlayerObj)
    (hnodup : (patch.map Prod.fst).Nodup)
    (habsent : lookupKey players id = none) (hmem : (id, v) ∈ patch) :
    lookupKey (handlePlayersMoved players patch) id = some v := by
  induction patch generalizing players with
  | nil => cases hmem
  | cons hd tl ih =>
    rw [handlePlayersMoved_cons]
    simp only [List.map_cons, List.nodup_cons] at hnodup
    rcases List.mem_cons.1 hmem with heq | hmemtl
    · subst heq
      rw [handlePlayersMoved_notMentioned tl _ id hnodup.1, habsent,
        mergeSpread_none, lookupKey_setKey_self]
    · have hne : hd.1 ≠ id := by
        intro e
        exact hnodup.1 (e ▸ List.mem_map_of_mem Prod.fst hmemtl)
      exact ih _ hnodup.2
        (by rw [lookupKey_setKey_ne _ _ _ _ hne, habsent]) hmemtl

/-- C1 witness: the amended theorem applied to the unknown id "p9" on an
empty mirror. -/
theorem c1_unknown_id_fabricates_record_witness :
    lookupKey (handlePlayersMoved [] [("p9", patchP9)]) "p9" = some patchP9 :=
  c1_unknown_id_fabricates_record [] [("p9", patchP9)] "p9" patchP9
    (by decide) (by decide) (by decide)

-- C2 --

/-- C2 counterexample: the claim says an avatar record, once known, is never
modified.  With "cat" already present as avCat, a player_joined carrying a
different sheet avCat2 under the same name replaces the stored record. -/
theorem c2_counterexample :
    lookupKey ([("cat", avCat)] : List (String × Avatar)) "cat" = some avCat ∧
    lookupKey (handlePlayerJoined [] [("cat", avCat)] pJoin avCat2).2 "cat" =
      some avCat2 ∧
    avCat2 ≠ avCat := by
  decide

/-- C2 (amended): handlePlayerJoined inserts or overwrites the player record,
and also unconditionally inserts or overwrites the avatar record: after the
event both lookups return exactly the event's records, whether or not the
avatar name was already known. -/
theorem c2_join_overwrites_both (players : List (String × PlayerObj))
    (avatars : List (String × Avatar)) (player : PlayerObj) (avatar : Avatar) :
    lookupKey (handlePlayerJoined players avatars player avatar).1
        (jsKey player.id) = some player ∧
    lookupKey (handlePlayerJoined players avatars player avatar).2
        avatar.name = some avatar :=
  ⟨lookupKey_setKey_self _ _ _, lookupKey_setKey_self _ _ _⟩

-- C3 --

/-- C3: the keydown listener recognizes the uppercase keys "W","A","S","D"
(they are inserted into the held set and start the movement loop), but
getDirectionFromKey maps none of them to a direction, so a movement-loop
tick whose first-inserted held key is uppercase sends no move intent at all;
the lowercase and arrow keys do map to canonical directions and are sent. -/
theorem c3_uppercase_key_sends_no_intent :
    ("W" ∈ movementKeys ∧ "A" ∈ movementKeys ∧
     "S" ∈ movementKeys ∧ "D" ∈ movementKeys) ∧
    (getDirectionFromKey "W" = none ∧ getDirectionFromKey "A" = none ∧
     getDirectionFromKey "S" = none ∧ getDirectionFromKey "D" = none) ∧
    keydown [] "W" = ["W"] ∧
    (movementFrame ["W"] none).2 = [] ∧
    (runFrames [["W"], ["W"], ["W"]] none).2 = [] ∧
    (getDirectionFromKey "w" = some "up" ∧
     getDirectionFromKey "a" = some "left" ∧
     getDirectionFromKey "s" = some "down" ∧
     getDirectionFromKey "d" = some "right" ∧
     getDirectionFromKey "ArrowUp" = some "up") ∧
    (movementFrame ["w"] none).2 = [Intent.move "up"] := by
  decide

-- C4 --

/-- A full player record facing south with an out-of-range animation index. -/
def pSouth5 : PlayerObj :=
  { id := some "p1", username := some "bob", x := some 100, y := some 100,
    facing := some "south", avatar := some "cat", animationFrame := some 5 }

/-- C4 counterexample: the claim says a missing frame set for the player's
facing makes the draw a silent skip.  With avatar "cat" known but having no
"north" frame set, drawing a north-facing player indexes a property of
`undefined` and faults instead. -/
theorem c4_counterexample :
    drawPlayer [("cat", avCat)] pNorth = DrawResult.fault := by
  decide

/-- C4 (amended): the per-player draw is a silent skip when the player's
avatar is missing from the avatar mapping, and when the frame at the
requested animation index is missing from the facing's frame list; but when
the frame set for the effective facing is missing altogether, the draw
faults (a TypeError from indexing `undefined`) rather than skipping. -/
theorem c4_draw_skip_or_fault :
    (∀ (avatars : List (String × Avatar)) (p : PlayerObj),
        lookupKey avatars (jsKey p.avatar) = none →
        drawPlayer avatars p = DrawResult.skipped) ∧
    (∀ (avatars : List (String × Avatar)) (p : PlayerObj) (av : Avatar),
        lookupKey avatars (jsKey p.avatar) = some av →
        lookupKey av.frames
          (if p.facing = some "west" then "east"
           else jsKey p.facing) = none →
        drawPlayer avatars p = DrawResult.fault) ∧
    (∀ (avatars : List (String × Avatar)) (p : PlayerObj) (av : Avatar)
        (fl : List String),
        lookupKey avatars (jsKey p.avatar) = some av →
        lookupKey av.frames
          (if p.facing = some "west" then "east"
           else jsKey p.facing) = some fl →
        fl[frameIndexOf p]? = none →
        drawPlayer avatars p = DrawResult.skipped) := by
  refine ⟨?_, ?_, ?_⟩
  · intro avatars p h
    simp [drawPlayer, h]
  · intro avatars p av h1 h2
    simp [drawPlayer, h1, h2]
  · intro avatars p av fl h1 h2 h3
    simp [drawPlayer, h1, h2, h3]

/-- C4 witness: the amended theorem applied at two concrete inputs — an
unknown avatar name is skipped, and an out-of-range animation index is
skipped. -/
theorem c4_draw_skip_or_fault_witness :
    drawPlayer [] pNorth = DrawResult.skipped ∧
    drawPlayer [("cat", avCat)] pSouth5 = DrawResult.skipped :=
  ⟨c4_draw_skip_or_fault.1 [] pNorth (by decide),
   c4_draw_skip_or_fault.2.2 [("cat", avCat)] pSouth5 avCat ["imgS0"]
     (by decide) (by decide) (by decide)⟩

-- C5 --

theorem runFrames_constant_direction (L : List (List String)) (d : String)
    (h : ∀ ks ∈ L, derivedDirection ks = some d) :
    runFrames L (some d) = (some d, []) := by
  induction L with
  | nil => rfl
  | cons ks rest ih =>
    have hks := h ks (List.mem_cons_self ks rest)
    cases ks with
    | nil => simp [derivedDirection] at hks
    | cons k tl =>
      simp only [derivedDirection] at hks
      simp [runFrames, movementFrame, hks,
        ih (fun x hx => h x (List.mem_cons_of_mem _ hx))]

/-- C5: a movementLoop tick sends a move intent only when the derived
direction differs from the last direction sent (a tick whose derived
direction equals the current one sends nothing), and across any nonempty run
of consecutive ticks whose held keys all derive the same direction, exactly
one move intent is sent when that direction differs from the last sent one
and zero intents are sent when it does not. -/
theorem c5_edge_triggered_send :
    (∀ (ks : List String) (cur : Option String),
        ks ≠ [] → derivedDirection ks = cur → (movementFrame ks cur).2 = []) ∧
    (∀ (L : List (List String)) (cur : Option String) (d : String),
        L ≠ [] → (∀ ks ∈ L, derivedDirection ks = some d) →
        (runFrames L cur).2 =
          if cur = some d then [] else [Intent.move d]) := by
  constructor
  · intro ks cur hne hder
    cases ks with
    | nil => exact absurd rfl hne
    | cons k tl =>
      simp only [derivedDirection] at hder
      cases hg : getDirectionFromKey k with
      | none => simp [movementFrame, hg]
      | some d =>
        rw [hg] at hder
        subst hder
        simp [movementFrame, hg]
  · intro L cur d hne h
    cases L with
    | nil => exact absurd rfl hne
    | cons ks rest =>
      have hks := h ks (List.mem_cons_self ks rest)
      have hrest : ∀ x ∈ rest, derivedDirection x = some d :=
        fun x hx => h x (List.mem_cons_of_mem _ hx)
      cases ks with
      | nil => simp [derivedDirection] at hks
      | cons k tl =>
        simp only [derivedDirection] at hks
        by_cases hc : cur = some d
        · subst hc
          simp [runFrames, movementFrame, hks,
            runFrames_constant_direction rest d hrest]
        · simp [runFrames, movementFrame, hks, hc,
            runFrames_constant_direction rest d hrest]

/-- C5 witness: three consecutive ticks with the "a" key held send exactly
one move intent, carrying "left". -/
theorem c5_edge_triggered_send_witness :
    (runFrames [["a"], ["a"], ["a"]] none).2 = [Intent.move "left"] := by
  have h := c5_edge_triggered_send.2 [["a"], ["a"], ["a"]] none "left"
    (by decide) (by decide)
  simpa using h

-- C6 --

/-- C6: the active direction is derived from the first-inserted still-held
key: holding Left then Right yields "left"; releasing Left promotes Right
("right"); releasing Right instead leaves "left" unchanged; and in general
the derived direction is the key map applied to the head of the held set. -/
theorem c6_press_order_priority :
    derivedDirection (keydown (keydown [] "ArrowLeft") "ArrowRight") =
      some "left" ∧
    derivedDirection
      (keyup (keydown (keydown [] "ArrowLeft") "ArrowRight") "ArrowLeft") =
      some "right" ∧
    derivedDirection
      (keyup (keydown (keydown [] "ArrowLeft") "ArrowRight") "ArrowRight") =
      some "left" ∧
    (∀ (k : String) (rest : List String),
      derivedDirection (k :: rest) = getDirectionFromKey k) :=
  ⟨by decide, by decide, by decide, fun k rest => rfl⟩

-- C7 --

/-- C7: both recenter paths compute the same offset, equal per axis to the
player position minus half the canvas size clamped into
[0, world - canvas]; when the axis fits (canvas ≤ world) the offset lies in
that interval for every player position, and when the world is smaller than
the canvas on an axis the offset is 0 (lower bound wins). -/
theorem c7_viewport_clamped (px py cw ch : ℚ) :
    updateViewportForMyAvatar px py cw ch =
      centerViewportOnMyAvatar px py cw ch ∧
    (centerViewportOnMyAvatar px py cw ch).1 =
      max 0 (min (px - cw / 2) (worldWidth - cw)) ∧
    (centerViewportOnMyAvatar px py cw ch).2 =
      max 0 (min (py - ch / 2) (worldHeight - ch)) ∧
    (cw ≤ worldWidth →
      0 ≤ (centerViewportOnMyAvatar px py cw ch).1 ∧
      (centerViewportOnMyAvatar px py cw ch).1 ≤ worldWidth - cw) ∧
    (worldWidth < cw → (centerViewportOnMyAvatar px py cw ch).1 = 0) ∧
    (ch ≤ worldHeight →
      0 ≤ (centerViewportOnMyAvatar px py cw ch).2 ∧
      (centerViewportOnMyAvatar px py cw ch).2 ≤ worldHeight - ch) ∧
    (worldHeight < ch → (centerViewportOnMyAvatar px py cw ch).2 = 0) := by
  have hx : (centerViewportOnMyAvatar px py cw ch).1 =
      max 0 (min (px - cw / 2) (worldWidth - cw)) := rfl
  have hy : (centerViewportOnMyAvatar px py cw ch).2 =
      max 0 (min (py - ch / 2) (worldHeight - ch)) := rfl
  refine ⟨rfl, hx, hy, ?_, ?_, ?_, ?_⟩
  · intro h
    rw [hx]
    exact ⟨le_max_left 0 _, max_le (sub_nonneg.2 h) (min_le_right _ _)⟩
  · intro h
    rw [hx]
    apply max_eq_left
    calc min (px - cw / 2) (worldWidth - cw) ≤ worldWidth - cw :=
          min_le_right _ _
      _ ≤ 0 := by linarith
  · intro h
    rw [hy]
    exact ⟨le_max_left 0 _, max_le (sub_nonneg.2 h) (min_le_right _ _)⟩
  · intro h
    rw [hy]
    apply max_eq_left
    calc min (py - ch / 2) (worldHeight - ch) ≤ worldHeight - ch :=
          min_le_right _ _
      _ ≤ 0 := by linarith

/-- C7 witness: an 800×600 viewport on the 2048×2048 world, player at
(100, 100): the offset stays inside the clamp interval on the x axis. -/
theorem c7_viewport_clamped_witness :
    0 ≤ (centerViewportOnMyAvatar 100 100 800 600).1 ∧
    (centerViewportOnMyAvatar 100 100 800 600).1 ≤ worldWidth - 800 :=
  (c7_viewport_clamped 100 100 800 600).2.2.2.1 (by norm_num [worldWidth])

-- C8 --

/-- C8: below the cap every abnormal close increments the attempt counter
and schedules a reconnect after 2000 ms times the new attempt number
(linear backoff); at or above the cap nothing is scheduled — in particular
after 5 consecutive abnormal closes the counter is 5 and a 6th close
schedules no reconnect; a successful open resets the counter to zero. -/
theorem c8_reconnect_backoff :
    (∀ a : Nat, a < maxReconnectAttempts →
      attemptReconnect a = (a + 1, some (2000 * (a + 1)))) ∧
    (∀ a : Nat, maxReconnectAttempts ≤ a → attemptReconnect a = (a, none)) ∧
    attemptsAfterCloses 5 = 5 ∧
    (attemptReconnect (attemptsAfterCloses 5)).2 = none ∧
    (∀ a : Nat, onOpenResetAttempts a = 0) := by
  refine ⟨?_, ?_, by decide, by decide, fun a => rfl⟩
  · intro a ha
    simp [attemptReconnect, ha]
  · intro a ha
    simp [attemptReconnect, Nat.not_lt.2 ha]

/-- C8 witness: the first abnormal close takes the counter from 0 to 1 and
schedules a reconnect after 2000 ms. -/
theorem c8_reconnect_backoff_witness :
    attemptReconnect 0 = (1, some 2000) := by
  have h := c8_reconnect_backoff.1 0 (by decide)
  simpa using h

-- C9 --

/-- C9: for any fixed viewport offset, worldToScreen and screenToWorld are
mutually inverse translations: each round trip is the identity on every
point. -/
theorem c9_world_screen_inverse (vx vy x y : ℚ) :
    worldToScreen vx vy (screenToWorld vx vy x y).1
      (screenToWorld vx vy x y).2 = (x, y) ∧
    screenToWorld vx vy (worldToScreen vx vy x y).1
      (worldToScreen vx vy x y).2 = (x, y) := by
  constructor <;> simp [worldToScreen, screenToWorld]

-- C10 --

/-- A full player record except that animationFrame is absent. -/
def pSouthNoAnim : PlayerObj :=
  { id := some "p1", username := some "bob", x := some 100, y := some 100,
    facing := some "south", avatar := some "cat", animationFrame := none }

/-- C10: a player whose animationFrame field is absent is drawn exactly as
if the field were 0 — the draw is not skipped for that reason — and when the
avatar and its facing's frame list are available the player renders with the
first frame of that list. -/
theorem c10_missing_animation_frame_defaults_to_zero :
    (∀ (avatars : List (String × Avatar)) (p : PlayerObj),
        p.animationFrame = none →
        drawPlayer avatars p =
          drawPlayer avatars { p with animationFrame := some 0 }) ∧
    (∀ (avatars : List (String × Avatar)) (p : PlayerObj) (av : Avatar)
        (f0 : String) (rest : List String),
        p.animationFrame = none →
        lookupKey avatars (jsKey p.avatar) = some av →
        p.facing ≠ some "west" →
        lookupKey av.frames (jsKey p.facing) = some (f0 :: rest) →
        f0 ≠ "" →
        drawPlayer avatars p = DrawResult.drawn f0 false) := by
  constructor
  · intro avatars p h
    have hfi : frameIndexOf { p with animationFrame := some 0 } =
        frameIndexOf p := by
      simp [frameIndexOf, h]
    simp [drawPlayer, hfi]
  · intro avatars p av f0 rest h hav hw hfr hne
    simp [drawPlayer, frameIndexOf, h, hav, hw, hfr, hne]

/-- C10 witness: a player joined with a partial record lacking
animationFrame, facing south with avatar "cat" known, renders with the
first south frame. -/
theorem c10_missing_animation_frame_defaults_to_zero_witness :
    drawPlayer [("cat", avCat)] pSouthNoAnim = DrawResult.drawn "imgS0"
      false :=
  c10_missing_animation_frame_defaults_to_zero.2 [("cat", avCat)]
    pSouthNoAnim avCat "imgS0" [] (by decide) (by decide) (by decide)
    (by decide) (by decide)
